import Mathlib

/-!
Shallow embedding of the professors service of the teacher-ranker backend
(src/professors/professors.service.ts), together with proofs about its
filter builder, pagination, query execution and relation projectors.

The persistence layer is modelled as an in-memory list of professor rows
with eagerly available relation rows; the Prisma operations used by the
service (count, findMany with skip/take/orderBy, findUnique with include)
are modelled as pure functions over that list.
-/

namespace TeacherRanker

/-! ## Data model (schema entities, as read by this service) -/

/-- University entity: id, name, acronym, optional department label. -/
structure University where
  id : Nat
  name : String
  acronym : String
  department : Option String
deriving Repr, DecidableEq

/-- Faculty entity. -/
structure Faculty where
  id : Nat
  name : String
deriving Repr, DecidableEq

/-- Course entity. -/
structure Course where
  id : Nat
  name : String
deriving Repr, DecidableEq

/-- Tag entity. -/
structure Tag where
  id : Nat
  name : String
  type : String
deriving Repr, DecidableEq

/-- Professor-University join row, with the related University eagerly loaded. -/
structure ProfUniversity where
  universityId : Nat
  university : University
deriving Repr, DecidableEq

/-- Professor-Faculty join row, with the related Faculty eagerly loaded. -/
structure ProfFaculty where
  facultyId : Nat
  faculty : Faculty
deriving Repr, DecidableEq

/-- Professor-Course join row, with the related Course eagerly loaded. -/
structure ProfCourse where
  courseId : Nat
  course : Course
deriving Repr, DecidableEq

/-- Professor-Tag join row, with the related Tag eagerly loaded. -/
structure ProfTag where
  tagId : Nat
  tag : Tag
deriving Repr, DecidableEq

/-- Review entity owned by a professor, referencing exactly one Course. -/
structure Review where
  id : Nat
  overallRating : Rat
  teachingQuality : Rat
  difficultyLevel : Rat
  mandatoryAttendance : Bool
  classInterest : Rat
  detailedComment : String
  gradeObtained : Rat
  createdAt : Nat
  visibilityStatus : String
  course : Course
deriving Repr, DecidableEq

/-- Professor row together with its relation rows as stored in the database. -/
structure Professor where
  id : Nat
  fullName : String
  averageRating : Rat
  reviewCount : Nat
  universities : List ProfUniversity
  faculties : List ProfFaculty
  courses : List ProfCourse
  tags : List ProfTag
  reviews : List Review
deriving Repr, DecidableEq

/-- The store: a point-in-time snapshot of all professor rows. -/
structure Db where
  professors : List Professor
deriving Repr, DecidableEq

/-! ## Search criteria (SearchProfessorDto) -/

/-- The search criteria object received by findAll. A missing optional
property of the TypeScript object is modelled as none. -/
structure SearchProfessorDto where
  name : Option String
  universityId : Option Nat
  facultyId : Option Nat
  department : Option String
  minRating : Option Rat
  maxRating : Option Rat
  minReviews : Option Nat
  page : Option Nat
  limit : Option Nat
deriving Repr, DecidableEq

/-! ## The where-filter built by findAll (Prisma.ProfessorWhereInput shape) -/

/-- Case-insensitive substring filter, as in a contains filter with
insensitive mode. -/
structure StringContainsFilter where
  contains : String
deriving Repr, DecidableEq

/-- Range filter on averageRating: optional gte and lte bounds. -/
structure AverageRatingFilter where
  gte : Option Rat
  lte : Option Rat
deriving Repr, DecidableEq

/-- Lower-bound filter on reviewCount. -/
structure ReviewCountFilter where
  gte : Nat
deriving Repr, DecidableEq

/-- The filter placed on the universities relation. The service builds
either a some-filter on the join row id, or a some-filter on the related
university department; line 122 of the service stores exactly one of the
two shapes in where.universities. -/
inductive UniversitiesFilter where
  | someUniversityId (universityId : Nat)
  | someDepartmentContains (department : String)
deriving Repr, DecidableEq

/-- The filter placed on the faculties relation: some join row with this
facultyId. -/
structure FacultiesFilter where
  facultyId : Nat
deriving Repr, DecidableEq

/-- The where-filter over Professor as assembled by findAll. -/
structure ProfessorWhereInput where
  fullName : Option StringContainsFilter
  averageRating : Option AverageRatingFilter
  reviewCount : Option ReviewCountFilter
  universities : Option UniversitiesFilter
  faculties : Option FacultiesFilter
deriving Repr, DecidableEq

/-- JavaScript truthiness test used on numeric criteria: 0 is falsy, so a
supplied 0 behaves like an absent value. -/
def jsTruthyNat : Option Nat → Option Nat
  | some u => if u == 0 then none else some u
  | none => none

/-- JavaScript truthiness test used on string criteria: the empty string is
falsy, so a supplied empty string behaves like an absent value. -/
def jsTruthyStr : Option String → Option String
  | some s => if s == "" then none else some s
  | none => none

/-- Filter construction of findAll (service lines 38-124): each supplied,
truthy criterion contributes its filter; the department filter, when
present, is written to where.universities after the universityId filter
and overwrites it. -/
def buildWhere (dto : SearchProfessorDto) : ProfessorWhereInput :=
  let parsedUniversityId := jsTruthyNat dto.universityId
  let parsedFacultyId := jsTruthyNat dto.facultyId
  let fullNameFilter : Option StringContainsFilter :=
    (jsTruthyStr dto.name).map (fun n => { contains := n })
  let averageRatingFilter : Option AverageRatingFilter :=
    if dto.minRating.isSome || dto.maxRating.isSome then
      some { gte := dto.minRating, lte := dto.maxRating }
    else none
  let reviewCountFilter : Option ReviewCountFilter :=
    dto.minReviews.map (fun m => { gte := m })
  let universityFilter : Option UniversitiesFilter :=
    parsedUniversityId.map UniversitiesFilter.someUniversityId
  let departmentFilter : Option UniversitiesFilter :=
    (jsTruthyStr dto.department).map UniversitiesFilter.someDepartmentContains
  let universitiesField : Option UniversitiesFilter :=
    match departmentFilter with
    | some f => some f
    | none => universityFilter
  let facultiesField : Option FacultiesFilter :=
    parsedFacultyId.map (fun f => { facultyId := f })
  { fullName := fullNameFilter
    averageRating := averageRatingFilter
    reviewCount := reviewCountFilter
    universities := universitiesField
    faculties := facultiesField }

/-! ## Predicate semantics (how the store evaluates the where-filter) -/

/-- Containment of one character list inside another, at any position. -/
def listContains (needle : List Char) : List Char → Bool
  | [] => needle.isEmpty
  | c :: t => needle.isPrefixOf (c :: t) || listContains needle t

/-- Case-insensitive substring containment: both strings are lowered
character by character, then compared for containment. -/
def containsCI (hay needle : String) : Bool :=
  listContains (needle.toList.map Char.toLower) (hay.toList.map Char.toLower)

/-- Evaluate the averageRating range filter. -/
def matchesAverageRating (f : AverageRatingFilter) (r : Rat) : Bool :=
  (match f.gte with
   | some g => decide (g ≤ r)
   | none => true) &&
  (match f.lte with
   | some l => decide (r ≤ l)
   | none => true)

/-- Evaluate the universities relation filter on the join rows of one
professor. A null department never matches a contains filter. -/
def matchesUniversities : UniversitiesFilter → List ProfUniversity → Bool
  | UniversitiesFilter.someUniversityId uid, rows =>
      rows.any (fun row => row.universityId == uid)
  | UniversitiesFilter.someDepartmentContains d, rows =>
      rows.any (fun row =>
        match row.university.department with
        | some dep => containsCI dep d
        | none => false)

/-- Evaluate the full where-filter on one professor row: all present
sub-filters must hold (logical AND). -/
def matchesWhere (w : ProfessorWhereInput) (p : Professor) : Bool :=
  (match w.fullName with
   | some f => containsCI p.fullName f.contains
   | none => true) &&
  (match w.averageRating with
   | some f => matchesAverageRating f p.averageRating
   | none => true) &&
  (match w.reviewCount with
   | some f => decide (f.gte ≤ p.reviewCount)
   | none => true) &&
  (match w.universities with
   | some f => matchesUniversities f p.universities
   | none => true) &&
  (match w.faculties with
   | some f => p.faculties.any (fun row => row.facultyId == f.facultyId)
   | none => true)

/-! ## Fetched records and response DTOs -/

/-- A professor record as handed to the projectors at run time. The service
casts the fetch result through an unchecked conversion, so each relation
array may be absent (none); calling map on an absent array fails. -/
structure FetchedProfessor where
  id : Nat
  fullName : String
  averageRating : Rat
  reviewCount : Nat
  universities : Option (List ProfUniversity)
  faculties : Option (List ProfFaculty)
  courses : Option (List ProfCourse)
  tags : Option (List ProfTag)
  reviews : Option (List Review)
deriving Repr, DecidableEq

/-- University entry of a response DTO. -/
structure UniversityDto where
  id : Nat
  name : String
  acronym : String
deriving Repr, DecidableEq

/-- Faculty entry of a response DTO. -/
structure FacultyDto where
  id : Nat
  name : String
deriving Repr, DecidableEq

/-- Course entry of a response DTO. -/
structure CourseDto where
  id : Nat
  name : String
deriving Repr, DecidableEq

/-- Tag entry of a response DTO. -/
structure TagDto where
  id : Nat
  name : String
  type : String
deriving Repr, DecidableEq

/-- Review entry of the detail response DTO. -/
structure ReviewDto where
  id : Nat
  overallRating : Rat
  teachingQuality : Rat
  difficultyLevel : Rat
  mandatoryAttendance : Bool
  classInterest : Rat
  detailedComment : String
  gradeObtained : Rat
  createdAt : Nat
  course : CourseDto
deriving Repr, DecidableEq

/-- Summary response DTO (list context). -/
structure ProfessorResponseDto where
  id : Nat
  fullName : String
  averageRating : Rat
  reviewCount : Nat
  universities : List UniversityDto
  faculties : List FacultyDto
deriving Repr, DecidableEq

/-- Detail response DTO (single-record context). -/
structure ProfessorDetailResponseDto where
  id : Nat
  fullName : String
  averageRating : Rat
  reviewCount : Nat
  universities : List UniversityDto
  faculties : List FacultyDto
  courses : List CourseDto
  tags : List TagDto
  reviews : List ReviewDto
deriving Repr, DecidableEq

/-- Pagination metadata of the paginated response. -/
structure PaginationMeta where
  total : Nat
  page : Nat
  lastPage : Nat
  limit : Nat
deriving Repr, DecidableEq

/-- Paginated search response. -/
structure PaginatedProfessorsResponseDto where
  data : List ProfessorResponseDto
  meta : PaginationMeta
deriving Repr, DecidableEq

/-- Failure outcomes of the service: the NotFound exception thrown by
findOne, and the run-time type failure of calling map on an absent
relation array. -/
inductive ServiceError where
  | notFoundException (message : String)
  | typeError
deriving Repr, DecidableEq

/-! ## Relation projectors (mapToProfessorResponse, mapToProfessorDetailResponse) -/

/-- Summary projector (service lines 226-244). It maps over the
universities and faculties arrays with no fallback, so an absent array
makes it fail; courses, tags and reviews are not touched. -/
def mapToProfessorResponse (p : FetchedProfessor) : Option ProfessorResponseDto :=
  match p.universities, p.faculties with
  | some unis, some facs =>
      some
        { id := p.id
          fullName := p.fullName
          averageRating := p.averageRating
          reviewCount := p.reviewCount
          universities := unis.map (fun rel =>
            { id := rel.university.id
              name := rel.university.name
              acronym := rel.university.acronym })
          faculties := facs.map (fun rel =>
            { id := rel.faculty.id
              name := rel.faculty.name }) }
  | _, _ => none

/-- Detail projector (service lines 247-289). Universities and faculties
are mapped with no fallback; courses, tags and reviews fall back to the
empty array when absent. -/
def mapToProfessorDetailResponse (p : FetchedProfessor) :
    Option ProfessorDetailResponseDto :=
  match p.universities, p.faculties with
  | some unis, some facs =>
      some
        { id := p.id
          fullName := p.fullName
          averageRating := p.averageRating
          reviewCount := p.reviewCount
          universities := unis.map (fun rel =>
            { id := rel.university.id
              name := rel.university.name
              acronym := rel.university.acronym })
          faculties := facs.map (fun rel =>
            { id := rel.faculty.id
              name := rel.faculty.name })
          courses := (p.courses.getD []).map (fun rel =>
            { id := rel.course.id
              name := rel.course.name })
          tags := (p.tags.getD []).map (fun rel =>
            { id := rel.tag.id
              name := rel.tag.name
              type := rel.tag.type })
          reviews := (p.reviews.getD []).map (fun review =>
            { id := review.id
              overallRating := review.overallRating
              teachingQuality := review.teachingQuality
              difficultyLevel := review.difficultyLevel
              mandatoryAttendance := review.mandatoryAttendance
              classInterest := review.classInterest
              detailedComment := review.detailedComment
              gradeObtained := review.gradeObtained
              createdAt := review.createdAt
              course :=
                { id := review.course.id
                  name := review.course.name } }) }
  | _, _ => none

/-! ## Store operations -/

/-- Descending order on averageRating, the orderBy of the list fetch. -/
def byAverageRatingDesc (a b : Professor) : Prop :=
  b.averageRating ≤ a.averageRating

instance : DecidableRel byAverageRatingDesc :=
  fun a b => inferInstanceAs (Decidable (b.averageRating ≤ a.averageRating))

instance : IsTotal Professor byAverageRatingDesc :=
  ⟨fun a b => le_total b.averageRating a.averageRating⟩

instance : IsTrans Professor byAverageRatingDesc :=
  ⟨fun _ _ _ h1 h2 => le_trans h2 h1⟩

/-- Descending order on createdAt, the orderBy of the reviews relation in
findOne. -/
def byCreatedAtDesc (a b : Review) : Prop :=
  b.createdAt ≤ a.createdAt

instance : DecidableRel byCreatedAtDesc :=
  fun a b => inferInstanceAs (Decidable (b.createdAt ≤ a.createdAt))

instance : IsTotal Review byCreatedAtDesc :=
  ⟨fun a b => Nat.le_total b.createdAt a.createdAt⟩

instance : IsTrans Review byCreatedAtDesc :=
  ⟨fun _ _ _ h1 h2 => Nat.le_trans h2 h1⟩

/-- The count operation: number of professor rows matching the filter. -/
def professorCount (db : Db) (w : ProfessorWhereInput) : Nat :=
  (db.professors.filter (matchesWhere w)).length

/-- The findMany operation: matching rows ordered by averageRating
descending, windowed by skip and take. -/
def professorFindMany (db : Db) (w : ProfessorWhereInput)
    (skip take : Nat) : List Professor :=
  (((db.professors.filter (matchesWhere w)).insertionSort
      byAverageRatingDesc).drop skip).take take

/-- The record shape produced by the list fetch: universities and
faculties are included (present), the other relations are not loaded. -/
def fetchForList (p : Professor) : FetchedProfessor :=
  { id := p.id
    fullName := p.fullName
    averageRating := p.averageRating
    reviewCount := p.reviewCount
    universities := some p.universities
    faculties := some p.faculties
    courses := none
    tags := none
    reviews := none }

/-- The record shape produced by the findOne fetch: every relation is
included; the reviews relation is restricted to visibilityStatus visible
and ordered by createdAt descending. -/
def fetchForDetail (p : Professor) : FetchedProfessor :=
  { id := p.id
    fullName := p.fullName
    averageRating := p.averageRating
    reviewCount := p.reviewCount
    universities := some p.universities
    faculties := some p.faculties
    courses := some p.courses
    tags := some p.tags
    reviews := some
      ((p.reviews.filter (fun rv => rv.visibilityStatus == "visible")).insertionSort
        byCreatedAtDesc) }

/-- Model of Math.ceil applied to the quotient total / limitN, for
limitN ≥ 1 (input validation guarantees limit ∈ [1,100]). The equality
with the exact rational ceiling is proved below. -/
def mathCeilDiv (total limitN : Nat) : Nat :=
  (total + limitN - 1) / limitN

/-! ## The service operations -/

/-- findAll (service lines 23-173): build the where-filter, count with it,
fetch the ordered page with it, project every fetched record to the
summary DTO, and return the page with pagination metadata. -/
def findAll (db : Db) (dto : SearchProfessorDto) :
    Except ServiceError PaginatedProfessorsResponseDto :=
  let parsedPage := dto.page.getD 1
  let parsedLimit := dto.limit.getD 20
  let w := buildWhere dto
  let skip := (parsedPage - 1) * parsedLimit
  let total := professorCount db w
  let professors := professorFindMany db w skip parsedLimit
  match professors.mapM (fun p => mapToProfessorResponse (fetchForList p)) with
  | some data =>
      Except.ok
        { data := data
          meta :=
            { total := total
              page := parsedPage
              lastPage := mathCeilDiv total parsedLimit
              limit := parsedLimit } }
  | none => Except.error ServiceError.typeError

/-- findOne (service lines 175-223): fetch by primary key with full eager
loading (visible reviews only, newest first), throw NotFound when no row
matches, and project to the detail DTO. -/
def findOne (db : Db) (i : Nat) : Except ServiceError ProfessorDetailResponseDto :=
  match db.professors.find? (fun p => p.id == i) with
  | none =>
      Except.error (ServiceError.notFoundException
        ("Profesor con ID " ++ toString i ++ " no encontrado"))
  | some p =>
      match mapToProfessorDetailResponse (fetchForDetail p) with
      | some d => Except.ok d
      | none => Except.error ServiceError.typeError

/-! ## Helper forms of the projector outputs -/

/-- The summary DTO produced for a fully loaded list-fetch record. -/
def summaryOf (p : Professor) : ProfessorResponseDto :=
  { id := p.id
    fullName := p.fullName
    averageRating := p.averageRating
    reviewCount := p.reviewCount
    universities := p.universities.map (fun rel =>
      { id := rel.university.id
        name := rel.university.name
        acronym := rel.university.acronym })
    faculties := p.faculties.map (fun rel =>
      { id := rel.faculty.id
        name := rel.faculty.name }) }

/-- The review entry produced for one review row. -/
def reviewDtoOf (review : Review) : ReviewDto :=
  { id := review.id
    overallRating := review.overallRating
    teachingQuality := review.teachingQuality
    difficultyLevel := review.difficultyLevel
    mandatoryAttendance := review.mandatoryAttendance
    classInterest := review.classInterest
    detailedComment := review.detailedComment
    gradeObtained := review.gradeObtained
    createdAt := review.createdAt
    course :=
      { id := review.course.id
        name := review.course.name } }

/-- The detail DTO produced for a fully loaded findOne fetch record. -/
def detailOf (p : Professor) : ProfessorDetailResponseDto :=
  { id := p.id
    fullName := p.fullName
    averageRating := p.averageRating
    reviewCount := p.reviewCount
    universities := p.universities.map (fun rel =>
      { id := rel.university.id
        name := rel.university.name
        acronym := rel.university.acronym })
    faculties := p.faculties.map (fun rel =>
      { id := rel.faculty.id
        name := rel.faculty.name })
    courses := p.courses.map (fun rel =>
      { id := rel.course.id
        name := rel.course.name })
    tags := p.tags.map (fun rel =>
      { id := rel.tag.id
        name := rel.tag.name
        type := rel.tag.type })
    reviews :=
      ((p.reviews.filter (fun rv => rv.visibilityStatus == "visible")).insertionSort
        byCreatedAtDesc).map reviewDtoOf }

theorem mapToProfessorResponse_fetchForList (p : Professor) :
    mapToProfessorResponse (fetchForList p) = some (summaryOf p) := rfl

theorem mapToProfessorDetailResponse_fetchForDetail (p : Professor) :
    mapToProfessorDetailResponse (fetchForDetail p) = some (detailOf p) := rfl

theorem mapM_summaries (ps : List Professor) :
    ps.mapM (fun p => mapToProfessorResponse (fetchForList p)) =
      some (ps.map summaryOf) := by
  induction ps with
  | nil => rfl
  | cons p ps ih =>
      rw [List.mapM_cons, mapToProfessorResponse_fetchForList, ih]
      rfl

/-- Full unfolding of findAll: it always succeeds, with the data page and
every metadata field expressed in terms of the built where-filter. -/
theorem findAll_eq (db : Db) (dto : SearchProfessorDto) :
    findAll db dto =
      Except.ok
        { data :=
            (professorFindMany db (buildWhere dto)
              ((dto.page.getD 1 - 1) * dto.limit.getD 20)
              (dto.limit.getD 20)).map summaryOf
          meta :=
            { total := professorCount db (buildWhere dto)
              page := dto.page.getD 1
              lastPage :=
                mathCeilDiv (professorCount db (buildWhere dto)) (dto.limit.getD 20)
              limit := dto.limit.getD 20 } } := by
  simp only [findAll, mapM_summaries]

/-- findOne unfolding on the found branch. -/
theorem findOne_eq_ok (db : Db) (i : Nat) (p : Professor)
    (hfind : db.professors.find? (fun q => q.id == i) = some p) :
    findOne db i = Except.ok (detailOf p) := by
  unfold findOne
  rw [hfind]
  simp only [mapToProfessorDetailResponse_fetchForDetail]

/-- mathCeilDiv computes the exact rational ceiling of total / limitN. -/
theorem mathCeilDiv_eq_ceil (t l : Nat) (hl : 0 < l) :
    mathCeilDiv t l = Nat.ceil ((t : Rat) / (l : Rat)) := by
  unfold mathCeilDiv
  rcases Nat.eq_zero_or_pos t with ht | ht
  · subst ht
    simp [Nat.div_eq_of_lt (by omega : l - 1 < l)]
  · have hA : t ≤ (t + l - 1) / l * l := by
      have h1 := Nat.lt_div_mul_add (a := t + l - 1) hl
      omega
    have hB : ((t + l - 1) / l - 1) * l < t := by
      have h1 := Nat.div_mul_le_self (t + l - 1) l
      have h2 : ((t + l - 1) / l - 1) * l = (t + l - 1) / l * l - 1 * l := by
        rw [Nat.sub_mul]
      omega
    have hlq : (0 : Rat) < (l : Rat) := by exact_mod_cast hl
    refine le_antisymm ?_ ?_
    · have hceil : ((t + l - 1) / l - 1) < Nat.ceil ((t : Rat) / (l : Rat)) := by
        rw [Nat.lt_ceil, lt_div_iff₀ hlq]
        exact_mod_cast hB
      omega
    · rw [Nat.ceil_le, div_le_iff₀ hlq]
      exact_mod_cast hA

/-! ## Concrete fixtures -/

/-- The search criteria object with nothing supplied. -/
def emptySearch : SearchProfessorDto :=
  { name := none
    universityId := none
    facultyId := none
    department := none
    minRating := none
    maxRating := none
    minReviews := none
    page := none
    limit := none }

/-- University 1, department Math. -/
def uniMathC1 : University :=
  { id := 1, name := "Alpha", acronym := "AL", department := some "Math" }

/-- University 2, department Physics. -/
def uniPhysicsC1 : University :=
  { id := 2, name := "Beta", acronym := "BE", department := some "Physics" }

/-- A professor whose university id match (row 1) and department match
(row 2) come only from two different joined rows. -/
def professorC1 : Professor :=
  { id := 10
    fullName := "P"
    averageRating := 4
    reviewCount := 0
    universities :=
      [{ universityId := 1, university := uniMathC1 },
       { universityId := 2, university := uniPhysicsC1 }]
    faculties := []
    courses := []
    tags := []
    reviews := [] }

/-- Store holding only that professor. -/
def dbC1 : Db := { professors := [professorC1] }

/-- Search supplying both universityId = 1 and department = Physics. -/
def dtoC1 : SearchProfessorDto :=
  { emptySearch with universityId := some 1, department := some "Physics" }

/-! ## Claims -/

/-- Claim C1. The claim asserts that a search supplying both universityId
and department keeps only professors with a single joined university row
satisfying both constraints. The code violates it: the department filter
is written to where.universities after the universityId filter and
overwrites it, so the universityId criterion is silently discarded. This
theorem shows, at the example input of the claim, that (a) the built
where-filter retains only the department constraint, (b) the professor has
no single joined row satisfying both constraints, yet (c) findAll returns
that professor. -/
theorem findAll_department_overwrites_universityId :
    (buildWhere dtoC1).universities =
      some (UniversitiesFilter.someDepartmentContains "Physics") ∧
    (∀ row ∈ professorC1.universities,
      ¬(row.universityId = 1 ∧
        ∃ dep, row.university.department = some dep ∧ containsCI dep "Physics" = true)) ∧
    ∃ r, findAll dbC1 dtoC1 = Except.ok r ∧ ∃ x ∈ r.data, x.id = 10 := by
  refine ⟨rfl, by decide, _, rfl, ?_⟩
  decide

/-- Claim C5: findOne fails with the NotFound error exactly when no
professor row has the requested id; when one does, it succeeds with a
detail DTO; no other outcome exists. -/
theorem findOne_notFound_iff_absent (db : Db) (i : Nat) :
    ((∃ msg, findOne db i = Except.error (ServiceError.notFoundException msg)) ↔
      ∀ p ∈ db.professors, p.id ≠ i) ∧
    ((∃ d, findOne db i = Except.ok d) ↔ ∃ p ∈ db.professors, p.id = i) ∧
    findOne db i ≠ Except.error ServiceError.typeError := by
  cases hcase : db.professors.find? (fun q => q.id == i) with
  | none =>
      have hnone := List.find?_eq_none.mp hcase
      have hout : findOne db i = Except.error (ServiceError.notFoundException
          ("Profesor con ID " ++ toString i ++ " no encontrado")) := by
        unfold findOne
        rw [hcase]
      refine ⟨⟨fun _ p hp => by simpa using hnone p hp, fun _ => ⟨_, hout⟩⟩, ?_, ?_⟩
      · constructor
        · rintro ⟨d, hd⟩
          rw [hout] at hd
          exact absurd hd (by simp)
        · rintro ⟨p, hp, hpid⟩
          exact absurd hpid (by simpa using hnone p hp)
      · rw [hout]
        simp
  | some p =>
      have hmem := List.mem_of_find?_eq_some hcase
      have hpid : p.id = i := by simpa using List.find?_some hcase
      have hout := findOne_eq_ok db i p hcase
      refine ⟨?_, ⟨fun _ => ⟨p, hmem, hpid⟩, fun _ => ⟨detailOf p, hout⟩⟩, ?_⟩
      · constructor
        · rintro ⟨msg, hmsg⟩
          rw [hout] at hmsg
          exact absurd hmsg (by simp)
        · intro hall
          exact absurd hpid (hall p hmem)
      · rw [hout]
        simp

/-- Claim C7: with an empty criteria set the predicate matches every
professor, the defaults page = 1 and limit = 20 apply (offset 0, at most
20 records), and the page is ordered by averageRating descending. -/
theorem findAll_empty_criteria_defaults (db : Db) :
    ∃ r, findAll db emptySearch = Except.ok r ∧
      r.meta.page = 1 ∧
      r.meta.limit = 20 ∧
      r.meta.total = db.professors.length ∧
      (∀ p, matchesWhere (buildWhere emptySearch) p = true) ∧
      r.data = ((db.professors.insertionSort byAverageRatingDesc).take 20).map summaryOf ∧
      r.data.length ≤ 20 ∧
      r.data.Pairwise (fun a b => b.averageRating ≤ a.averageRating) := by
  have hall : ∀ p, matchesWhere (buildWhere emptySearch) p = true := fun p => rfl
  have hfilter : db.professors.filter (matchesWhere (buildWhere emptySearch)) =
      db.professors :=
    List.filter_eq_self.mpr (fun p _ => hall p)
  have hdata : (professorFindMany db (buildWhere emptySearch)
      ((emptySearch.page.getD 1 - 1) * emptySearch.limit.getD 20)
      (emptySearch.limit.getD 20)).map summaryOf =
      ((db.professors.insertionSort byAverageRatingDesc).take 20).map summaryOf := by
    simp only [professorFindMany]
    rw [hfilter]
    simp [emptySearch]
  refine ⟨_, findAll_eq db emptySearch, rfl, rfl, ?_, hall, hdata, ?_, ?_⟩
  · show professorCount db (buildWhere emptySearch) = db.professors.length
    simp [professorCount, hfilter]
  · rw [hdata]
    simp
  · rw [hdata]
    refine List.pairwise_map.mpr ?_
    have hs := List.sorted_insertionSort byAverageRatingDesc db.professors
    exact (hs.sublist (List.take_sublist 20 _)).imp (fun h => h)

/-- Claim C10: criteria whose value is falsy are treated as absent:
universityId = 0, facultyId = 0, name equal to the empty string, and
department equal to the empty string each impose no constraint, so the
search behaves exactly as if the criterion had not been supplied. -/
theorem findAll_falsy_criteria_ignored (db : Db) (dto : SearchProfessorDto) :
    findAll db { dto with universityId := some 0 } =
      findAll db { dto with universityId := none } ∧
    findAll db { dto with facultyId := some 0 } =
      findAll db { dto with facultyId := none } ∧
    findAll db { dto with name := some "" } =
      findAll db { dto with name := none } ∧
    findAll db { dto with department := some "" } =
      findAll db { dto with department := none } := by
  refine ⟨?_, ?_, ?_, ?_⟩ <;>
    simp [findAll_eq, buildWhere, jsTruthyNat, jsTruthyStr]

/-- Claim C2: meta.total is the count of professor rows satisfying exactly
the where-filter used for the fetch that produces data; the count ignores
the pagination window. -/
theorem findAll_total_matches_data_predicate (db : Db) (dto : SearchProfessorDto)
    (r : PaginatedProfessorsResponseDto) (h : findAll db dto = Except.ok r) :
    r.meta.total = (db.professors.filter (matchesWhere (buildWhere dto))).length ∧
    r.data =
      ((((db.professors.filter (matchesWhere (buildWhere dto))).insertionSort
          byAverageRatingDesc).drop
            ((dto.page.getD 1 - 1) * dto.limit.getD 20)).take
              (dto.limit.getD 20)).map summaryOf := by
  rw [findAll_eq] at h
  injection h with h
  subst h
  exact ⟨rfl, rfl⟩

/-- Claim C3: for supplied page and limit within bounds, the fetch offset
is (page - 1) * limit and meta.lastPage is the rational ceiling of
total / limit, with lastPage = 0 when total = 0. -/
theorem findAll_pagination_correct (db : Db) (dto : SearchProfessorDto)
    (p l : Nat) (hp : dto.page = some p) (hl : dto.limit = some l)
    (hl1 : 1 ≤ l) (hl100 : l ≤ 100)
    (r : PaginatedProfessorsResponseDto) (h : findAll db dto = Except.ok r) :
    r.data =
      ((((db.professors.filter (matchesWhere (buildWhere dto))).insertionSort
          byAverageRatingDesc).drop ((p - 1) * l)).take l).map summaryOf ∧
    r.meta.lastPage = Nat.ceil ((r.meta.total : Rat) / (l : Rat)) ∧
    (r.meta.total = 0 → r.meta.lastPage = 0) := by
  rw [findAll_eq] at h
  injection h with h
  subst h
  rw [hp, hl]
  refine ⟨rfl, mathCeilDiv_eq_ceil _ l hl1, ?_⟩
  intro h0
  have ht : professorCount db (buildWhere dto) = 0 := h0
  show mathCeilDiv (professorCount db (buildWhere dto)) ((some l).getD 20) = 0
  rw [ht]
  show (0 + l - 1) / l = 0
  exact Nat.div_eq_of_lt (by omega)

/-- Claim C4: the detail DTO of findOne contains exactly the professor's
reviews with visibilityStatus visible, ordered by createdAt descending. -/
theorem findOne_reviews_visible_desc (db : Db) (i : Nat) (p : Professor)
    (hfind : db.professors.find? (fun q => q.id == i) = some p) :
    ∃ d, findOne db i = Except.ok d ∧
      d.reviews.Perm
        ((p.reviews.filter (fun rv => rv.visibilityStatus == "visible")).map
          reviewDtoOf) ∧
      d.reviews.Pairwise (fun a b => b.createdAt ≤ a.createdAt) := by
  refine ⟨detailOf p, findOne_eq_ok db i p hfind, ?_, ?_⟩
  · exact (List.perm_insertionSort byCreatedAtDesc _).map reviewDtoOf
  · refine List.pairwise_map.mpr ?_
    exact (List.sorted_insertionSort byCreatedAtDesc _).imp (fun h => h)

/-- Every professor row passing the built where-filter respects the
supplied rating bounds. -/
theorem matchesWhere_rating_bounds (dto : SearchProfessorDto) (q : Professor)
    (hq : matchesWhere (buildWhere dto) q = true) :
    (∀ mn, dto.minRating = some mn → mn ≤ q.averageRating) ∧
    (∀ mx, dto.maxRating = some mx → q.averageRating ≤ mx) := by
  unfold matchesWhere at hq
  have h2 : (match (buildWhere dto).averageRating with
      | some f => matchesAverageRating f q.averageRating
      | none => true) = true :=
    ((Bool.and_eq_true _ _).mp
      (((Bool.and_eq_true _ _).mp
        (((Bool.and_eq_true _ _).mp
          (((Bool.and_eq_true _ _).mp hq).1)).1)).1)).2
  constructor
  · intro mn hmn
    rcases hmx : dto.maxRating with _ | mx <;>
      simp [buildWhere, matchesAverageRating, hmn, hmx] at h2
    · exact h2
    · exact h2.1
  · intro mx hmx
    rcases hmn : dto.minRating with _ | mn <;>
      simp [buildWhere, matchesAverageRating, hmn, hmx] at h2
    · exact h2
    · exact h2.2

/-- Claim C6: every professor in a search result respects the supplied
minRating (≥) and maxRating (≤) bounds, each applicable independently;
and when only rating bounds are supplied the where-filter holds exactly
for the professors within the bounds. -/
theorem findAll_rating_bounds (db : Db) (dto : SearchProfessorDto)
    (r : PaginatedProfessorsResponseDto) (h : findAll db dto = Except.ok r) :
    (∀ x ∈ r.data,
      (∀ mn, dto.minRating = some mn → mn ≤ x.averageRating) ∧
      (∀ mx, dto.maxRating = some mx → x.averageRating ≤ mx)) ∧
    (dto.name = none → dto.universityId = none → dto.facultyId = none →
      dto.department = none → dto.minReviews = none →
      ∀ q : Professor, matchesWhere (buildWhere dto) q = true ↔
        ((∀ mn, dto.minRating = some mn → mn ≤ q.averageRating) ∧
         (∀ mx, dto.maxRating = some mx → q.averageRating ≤ mx))) := by
  constructor
  · intro x hx
    rw [findAll_eq] at h
    injection h with h
    subst h
    obtain ⟨q, hq, rfl⟩ := List.mem_map.mp hx
    simp only [professorFindMany] at hq
    have hq2 : q ∈ db.professors.filter (matchesWhere (buildWhere dto)) :=
      (List.mem_insertionSort _).mp (List.mem_of_mem_drop (List.mem_of_mem_take hq))
    have hb := matchesWhere_rating_bounds dto q (List.mem_filter.mp hq2).2
    simpa [summaryOf] using hb
  · intro hn hu hf hd hmr q
    rcases hmn : dto.minRating with _ | mn <;> rcases hmx : dto.maxRating with _ | mx <;>
      simp [matchesWhere, buildWhere, matchesAverageRating, jsTruthyNat, jsTruthyStr,
        hn, hu, hf, hd, hmr, hmn, hmx]

/-- A fetched record whose universities relation array is missing. -/
def orphanC8 : FetchedProfessor :=
  { id := 1
    fullName := "X"
    averageRating := 0
    reviewCount := 0
    universities := none
    faculties := some []
    courses := none
    tags := none
    reviews := none }

/-- Claim C8 counterexample: a fetched record whose universities array is
missing makes both projector functions fail (they map over that array
with no fallback) instead of producing an empty sequence. -/
theorem projectors_fail_on_missing_universities :
    mapToProfessorResponse orphanC8 = none ∧
    mapToProfessorDetailResponse orphanC8 = none := ⟨rfl, rfl⟩

/-- Claim C8 (amended): when the universities and faculties arrays are
present, both projectors succeed, and a missing courses, tags or reviews
array projects to an empty sequence in the detail DTO (the summary DTO
does not include those relations); a record missing universities or
faculties instead makes both projectors fail. -/
theorem projectors_missing_optional_relations (p : FetchedProfessor)
    (us : List ProfUniversity) (fs : List ProfFaculty)
    (hu : p.universities = some us) (hf : p.faculties = some fs) :
    (∃ d, mapToProfessorResponse p = some d) ∧
    (∃ d, mapToProfessorDetailResponse p = some d ∧
      (p.courses = none → d.courses = []) ∧
      (p.tags = none → d.tags = []) ∧
      (p.reviews = none → d.reviews = [])) := by
  obtain ⟨pid, pname, pavg, pcnt, pu, pf, pc, pt, pr⟩ := p
  dsimp only at hu hf
  subst hu
  subst hf
  refine ⟨⟨_, rfl⟩, ⟨_, rfl, ?_, ?_, ?_⟩⟩ <;> intro h0 <;> dsimp only at h0 <;>
    subst h0 <;> rfl

/-- Claim C9: when the computed offset is at or beyond the count of
matching records, findAll raises no error: it succeeds with an empty data
page while meta still reports the true total and lastPage. -/
theorem findAll_page_beyond_last_empty (db : Db) (dto : SearchProfessorDto)
    (hlim : 1 ≤ dto.limit.getD 20)
    (hbeyond : (db.professors.filter (matchesWhere (buildWhere dto))).length ≤
      (dto.page.getD 1 - 1) * dto.limit.getD 20) :
    ∃ r, findAll db dto = Except.ok r ∧
      r.data = [] ∧
      r.meta.total = (db.professors.filter (matchesWhere (buildWhere dto))).length ∧
      r.meta.lastPage =
        Nat.ceil (((db.professors.filter (matchesWhere (buildWhere dto))).length : Rat) /
          (dto.limit.getD 20 : Rat)) := by
  refine ⟨_, findAll_eq db dto, ?_, rfl, mathCeilDiv_eq_ceil _ _ hlim⟩
  show (professorFindMany db (buildWhere dto) _ _).map summaryOf = []
  unfold professorFindMany
  rw [List.drop_eq_nil_of_le]
  · simp
  · simpa using hbeyond

/-! ## Witness fixtures -/

/-- The rational 7/2 = 3.5, built directly so it evaluates in the kernel. -/
def ratSevenHalves : Rat := ⟨7, 2, by decide, by decide⟩

/-- The rational 9/2 = 4.5, built directly so it evaluates in the kernel. -/
def ratNineHalves : Rat := ⟨9, 2, by decide, by decide⟩

/-- Sample professor with an accented name. -/
def profGarcia : Professor :=
  { id := 1
    fullName := "María García"
    averageRating := 4
    reviewCount := 5
    universities := []
    faculties := []
    courses := []
    tags := []
    reviews := [] }

/-- Second sample professor with a lower rating. -/
def profDoe : Professor :=
  { profGarcia with id := 2, fullName := "John Doe", averageRating := 3, reviewCount := 2 }

/-- Sample store with the two professors. -/
def dbSample : Db := { professors := [profGarcia, profDoe] }

/-- Search by name only. -/
def dtoName : SearchProfessorDto := { emptySearch with name := some "garcía" }

/-- The response findAll returns for the name search on the sample store. -/
def rNameSearch : PaginatedProfessorsResponseDto :=
  { data := [summaryOf profGarcia]
    meta := { total := 1, page := 1, lastPage := 1, limit := 20 } }

/-- Search asking for page 2 with page size 1. -/
def dtoPage2 : SearchProfessorDto := { emptySearch with page := some 2, limit := some 1 }

/-- The response findAll returns for the page-2 search on the sample store. -/
def rPage2 : PaginatedProfessorsResponseDto :=
  { data := [summaryOf profDoe]
    meta := { total := 2, page := 2, lastPage := 2, limit := 1 } }

/-- Search asking for page 5 of the sample store (beyond the last page). -/
def dtoFarPage : SearchProfessorDto := { emptySearch with page := some 5 }

/-- Search with minRating = 3 and maxRating = 4.5. -/
def dtoRating : SearchProfessorDto :=
  { emptySearch with minRating := some 3, maxRating := some ratNineHalves }

/-- Professor rated below the rating window. -/
def profLow : Professor :=
  { profGarcia with id := 21, fullName := "Low", averageRating := 2 }

/-- Professor rated inside the rating window. -/
def profMid : Professor :=
  { profGarcia with id := 22, fullName := "Mid", averageRating := ratSevenHalves }

/-- Professor rated above the rating window. -/
def profHigh : Professor :=
  { profGarcia with id := 23, fullName := "High", averageRating := 5 }

/-- Store with professors rated 2, 3.5 and 5. -/
def dbRatings : Db := { professors := [profLow, profMid, profHigh] }

/-- The response findAll returns for the rating search on that store. -/
def rRatings : PaginatedProfessorsResponseDto :=
  { data := [summaryOf profMid]
    meta := { total := 1, page := 1, lastPage := 1, limit := 20 } }

/-- A course used by the sample reviews. -/
def courseCalc : Course := { id := 7, name := "Calculus" }

/-- A visible review created at time 200. -/
def reviewVisible : Review :=
  { id := 1
    overallRating := 5
    teachingQuality := 5
    difficultyLevel := 2
    mandatoryAttendance := false
    classInterest := 4
    detailedComment := "great"
    gradeObtained := 18
    createdAt := 200
    visibilityStatus := "visible"
    course := courseCalc }

/-- A hidden review created at the earlier time 100. -/
def reviewHidden : Review :=
  { reviewVisible with id := 2, createdAt := 100, visibilityStatus := "hidden" }

/-- Professor with one visible and one hidden review. -/
def profReviewed : Professor :=
  { id := 11
    fullName := "Q"
    averageRating := 3
    reviewCount := 2
    universities := []
    faculties := []
    courses := []
    tags := []
    reviews := [reviewHidden, reviewVisible] }

/-- Store holding the reviewed professor. -/
def dbReviewed : Db := { professors := [profReviewed] }

/-- A fetched record with universities and faculties present and the three
guarded relation arrays missing. -/
def minimalFetched : FetchedProfessor :=
  { id := 2
    fullName := "Y"
    averageRating := 1
    reviewCount := 0
    universities := some []
    faculties := some []
    courses := none
    tags := none
    reviews := none }

/-! ## Witnesses -/

/-- Witness for claim C2 at the name search on the sample store. -/
theorem findAll_total_matches_data_predicate_witness :
    rNameSearch.meta.total =
      (dbSample.professors.filter (matchesWhere (buildWhere dtoName))).length ∧
    rNameSearch.data =
      ((((dbSample.professors.filter (matchesWhere (buildWhere dtoName))).insertionSort
          byAverageRatingDesc).drop
            ((dtoName.page.getD 1 - 1) * dtoName.limit.getD 20)).take
              (dtoName.limit.getD 20)).map summaryOf :=
  findAll_total_matches_data_predicate dbSample dtoName rNameSearch rfl

/-- Witness for claim C3 at page = 2, limit = 1 on the sample store. -/
theorem findAll_pagination_correct_witness :
    rPage2.data =
      ((((dbSample.professors.filter (matchesWhere (buildWhere dtoPage2))).insertionSort
          byAverageRatingDesc).drop ((2 - 1) * 1)).take 1).map summaryOf ∧
    rPage2.meta.lastPage = Nat.ceil ((rPage2.meta.total : Rat) / ((1 : Nat) : Rat)) ∧
    (rPage2.meta.total = 0 → rPage2.meta.lastPage = 0) :=
  findAll_pagination_correct dbSample dtoPage2 2 1 rfl rfl (by decide) (by decide)
    rPage2 rfl

/-- Witness for claim C4 at the professor with one visible (newer) and one
hidden (older) review. -/
theorem findOne_reviews_visible_desc_witness :
    ∃ d, findOne dbReviewed 11 = Except.ok d ∧
      d.reviews.Perm
        ((profReviewed.reviews.filter (fun rv => rv.visibilityStatus == "visible")).map
          reviewDtoOf) ∧
      d.reviews.Pairwise (fun a b => b.createdAt ≤ a.createdAt) :=
  findOne_reviews_visible_desc dbReviewed 11 profReviewed (by decide)

/-- Witness for claim C6 at minRating = 3, maxRating = 4.5 on the store
with professors rated 2, 3.5 and 5. -/
theorem findAll_rating_bounds_witness :
    (∀ x ∈ rRatings.data,
      (∀ mn, dtoRating.minRating = some mn → mn ≤ x.averageRating) ∧
      (∀ mx, dtoRating.maxRating = some mx → x.averageRating ≤ mx)) ∧
    (dtoRating.name = none → dtoRating.universityId = none →
      dtoRating.facultyId = none → dtoRating.department = none →
      dtoRating.minReviews = none →
      ∀ q : Professor, matchesWhere (buildWhere dtoRating) q = true ↔
        ((∀ mn, dtoRating.minRating = some mn → mn ≤ q.averageRating) ∧
         (∀ mx, dtoRating.maxRating = some mx → q.averageRating ≤ mx))) :=
  findAll_rating_bounds dbRatings dtoRating rRatings rfl

/-- Witness for the amended claim C8 at a record missing courses, tags and
reviews. -/
theorem projectors_missing_optional_relations_witness :
    (∃ d, mapToProfessorResponse minimalFetched = some d) ∧
    (∃ d, mapToProfessorDetailResponse minimalFetched = some d ∧
      (minimalFetched.courses = none → d.courses = []) ∧
      (minimalFetched.tags = none → d.tags = []) ∧
      (minimalFetched.reviews = none → d.reviews = [])) :=
  projectors_missing_optional_relations minimalFetched [] [] rfl rfl

/-- Witness for claim C9 at page 5 of the two-professor sample store. -/
theorem findAll_page_beyond_last_empty_witness :
    ∃ r, findAll dbSample dtoFarPage = Except.ok r ∧
      r.data = [] ∧
      r.meta.total =
        (dbSample.professors.filter (matchesWhere (buildWhere dtoFarPage))).length ∧
      r.meta.lastPage =
        Nat.ceil
          (((dbSample.professors.filter (matchesWhere (buildWhere dtoFarPage))).length : Rat) /
            (dtoFarPage.limit.getD 20 : Rat)) :=
  findAll_page_beyond_last_empty dbSample dtoFarPage (by decide) (by decide)

end TeacherRanker
